import Mathlib

/-!
Shallow embedding of the tkloud word-cloud form application (`src/app.pyw`).

The application is a single-file tkinter form.  The embedding below models the
pure core: the field validators (`FieldsValidator`), the configuration record
(`Image`, a Python dataclass with a `__post_init__` defaulting step), and the
form controller's read/validate/build/generate pipeline (`Form`).  Widget state
is modelled as a record of the raw string values the widgets would return;
Python exceptions are modelled with `Except`, distinguishing the application's
own `FormException` from Python's built-in `ValueError` (raised by `int()` on a
non-numeric literal), since the submission boundary catches only the former.
External effects (the wordcloud generator, file writes, message boxes) are
modelled as an event list.
-/

/-- Whitespace characters recognised by Python's `str.strip` / `str.isspace`
(ASCII subset: space, tab, newline, carriage return, vertical tab, form feed). -/
def isPySpace (c : Char) : Bool :=
  c = ' ' || c = '\t' || c = '\n' || c = '\r' || c = Char.ofNat 11 || c = Char.ofNat 12

/-- Python `str.strip()` on a character list: drop whitespace from both ends. -/
def pyStripList (l : List Char) : List Char :=
  ((l.dropWhile isPySpace).reverse.dropWhile isPySpace).reverse

/-- Python `str.strip()`. -/
def pyStrip (s : String) : String := String.mk (pyStripList s.data)

def isAsciiDigit (c : Char) : Bool := '0' ≤ c && c ≤ '9'

/-- Tail of a Python base-10 integer literal: digits, with single underscores
allowed only between digits. -/
def digitTail : List Char → Bool
  | [] => true
  | c :: rest =>
    if isAsciiDigit c then digitTail rest
    else if c = '_' then
      match rest with
      | [] => false
      | d :: r => isAsciiDigit d && digitTail r
    else false

/-- A valid unsigned Python base-10 integer literal: nonempty, starts with a
digit, then `digitTail`. -/
def validIntLiteral : List Char → Bool
  | [] => false
  | c :: rest => isAsciiDigit c && digitTail rest

def digitsVal (l : List Char) : Nat :=
  l.foldl (fun a c => a * 10 + (c.toNat - 48)) 0

def intLiteralVal (l : List Char) : Nat :=
  digitsVal (l.filter (fun c => c ≠ '_'))

/-- Python's built-in `int(s)` for base 10: optional surrounding whitespace,
optional sign, then a digit run.  Returns `none` where Python raises
`ValueError`. -/
def parseIntPy (s : String) : Option Int :=
  match pyStripList s.data with
  | '-' :: rest => if validIntLiteral rest then some (-(intLiteralVal rest : Int)) else none
  | '+' :: rest => if validIntLiteral rest then some (intLiteralVal rest) else none
  | l => if validIntLiteral l then some (intLiteralVal l) else none

/-- The two exception kinds that can escape the validators: the application's
`FormException` (caught at the submission boundary) and Python's built-in
`ValueError` from `int()` (not caught there).  `valueError` carries the
offending literal. -/
inductive AppError where
  | formException (msg : String)
  | valueError (literal : String)
deriving DecidableEq

/-- Python `int(s)` as an exception-raising conversion. -/
def intPyE (s : String) : Except AppError Int :=
  match parseIntPy s with
  | some n => .ok n
  | none => .error (.valueError s)

def MIN_WIDTH_IMAGE : Int := 400
def MAX_WIDTH_IMAGE : Int := 3000
def MIN_HEIGHT_IMAGE : Int := 200
def MAX_HEIGHT_IMAGE : Int := 1500
def MIN_NUM_WORDS : Int := 200
def MAX_NUM_WORDS : Int := 400

/-- `FieldsValidator.validate_text_content`: fails when the value is empty or a
bare newline. -/
def validate_text_content (textual_content : String) : Except AppError Unit :=
  if textual_content = "" ∨ textual_content = "\n" then
    .error (.formException "Textual content cannot be empty.")
  else .ok ()

/-- `FieldsValidator.validate_width`.  The messages inline the module constants
(400, 3000) exactly as the source f-string renders them. -/
def validate_width (width : String) : Except AppError Unit :=
  if width = "" then .error (.formException "Width cannot be empty.")
  else
    match parseIntPy width with
    | none => .error (.valueError width)
    | some w =>
      if w ≤ 0 then .error (.formException "Width cannot be less equal to zero.")
      else if w < MIN_WIDTH_IMAGE ∨ w > MAX_WIDTH_IMAGE then
        .error (.formException "Width needs to be between 400 and 3000.")
      else .ok ()

/-- `FieldsValidator.validate_height`. -/
def validate_height (height : String) : Except AppError Unit :=
  if height = "" then .error (.formException "Height cannot be empty.")
  else
    match parseIntPy height with
    | none => .error (.valueError height)
    | some h =>
      if h ≤ 0 then .error (.formException "Height cannot be less equal to zero.")
      else if h < MIN_HEIGHT_IMAGE ∨ h > MAX_HEIGHT_IMAGE then
        .error (.formException "Height needs to be between 200 and 1500.")
      else .ok ()

/-- `FieldsValidator.validate_max_words`. -/
def validate_max_words (max_words : String) : Except AppError Unit :=
  if max_words = "" then .error (.formException "Max Words cannot be empty.")
  else
    match parseIntPy max_words with
    | none => .error (.valueError max_words)
    | some m =>
      if m ≤ 0 then .error (.formException "Max Words cannot be less equal to zero.")
      else if m < MIN_NUM_WORDS ∨ m > MAX_NUM_WORDS then
        .error (.formException "Max words needs to be between 200 and 400.")
      else .ok ()

/-- `os.path.basename` (POSIX): the part after the last slash. -/
def pyBasename (s : String) : String :=
  String.mk ((s.data.reverse.takeWhile (fun c => c ≠ '/')).reverse)

/-- Python `s.split(".")[0]`: the part before the first dot (the whole string
when there is no dot). -/
def splitDotHead (s : String) : String :=
  String.mk (s.data.takeWhile (fun c => c ≠ '.'))

/-- Python `str.isspace()`: true iff the string is nonempty and every character
is whitespace.  In particular `"".isspace()` is `False`. -/
def pyIsSpaceStr (s : String) : Bool :=
  !s.data.isEmpty && s.data.all isPySpace

/-- `FieldsValidator.validate_file_path`: fails when the path is empty or when
`basename(path).split(".")[0].isspace()` holds. -/
def validate_file_path (file_path : String) : Except AppError Unit :=
  if file_path = "" ∨ pyIsSpaceStr (splitDotHead (pyBasename file_path)) = true then
    .error (.formException "File name cannot be empty.")
  else .ok ()

/-- The `Image` dataclass after construction (with `__post_init__` already
applied, so `background_color` is a plain string). -/
structure Image where
  textual_content : String
  width : Int
  height : Int
  max_words : Int
  background_color : String
  colormap : String
  stopwords : Option (Finset String)
  file_path : String
deriving DecidableEq

/-- Constructing an `Image`: the dataclass `__init__` followed by
`__post_init__`, which replaces a `None` background color by `"black"`. -/
def Image.make (textual_content : String) (width height max_words : Int)
    (background_color : Option String) (colormap : String)
    (stopwords : Option (Finset String)) (file_path : String) : Image :=
  { textual_content := textual_content, width := width, height := height,
    max_words := max_words, background_color := background_color.getD "black",
    colormap := colormap, stopwords := stopwords, file_path := file_path }

/-- The raw values the form widgets hold.  `background_color_field` is an
`Option` because `askcolor` stores `None` on cancellation (the field starts as
the empty string, modelled `some ""`); all other fields are the strings the
widgets would return. -/
structure FormState where
  textual_content_field : String
  width_field : String
  height_field : String
  max_words_field : String
  background_color_field : Option String
  colormap_field : String
  stopwords_field : String
  file_path_field : String
deriving DecidableEq

/-- `FieldUtils.get_text_value`: `field.get("1.0", END).strip()`. -/
def get_text_value (raw : String) : String := pyStrip raw

/-- `FieldUtils.get_box_value`: `field.get().strip()`. -/
def get_box_value (raw : String) : String := pyStrip raw

/-- The fixed colormap palette list (`colormap_values` in the source). -/
def colormap_values : List String :=
  ["Accent", "Accent_r", "Blues", "Blues_r", "BrBG", "BrBG_r", "BuGn", "BuGn_r",
   "BuPu", "BuPu_r", "CMRmap", "CMRmap_r", "Dark2", "Dark2_r", "GnBu", "GnBu_r",
   "Greens", "Greens_r", "Greys", "Greys_r", "OrRd", "OrRd_r", "Oranges", "Oranges_r",
   "PRGn", "PRGn_r", "Paired", "Paired_r", "Pastel1", "Pastel1_r", "Pastel2", "Pastel2_r",
   "PiYG", "PiYG_r", "PuBu", "PuBuGn", "PuBuGn_r", "PuBu_r", "PuOr", "PuOr_r",
   "PuRd", "PuRd_r", "Purples", "Purples_r", "RdBu", "RdBu_r", "RdGy", "RdGy_r",
   "RdPu", "RdPu_r", "RdYlBu", "RdYlBu_r", "RdYlGn", "RdYlGn_r", "Reds", "Reds_r",
   "Set1", "Set1_r", "Set2", "Set2_r", "Set3", "Set3_r", "Spectral", "Spectral_r",
   "Wistia", "Wistia_r", "YlGn", "YlGnBu", "YlGnBu_r", "YlGn_r", "YlOrBr", "YlOrBr_r",
   "YlOrRd", "YlOrRd_r", "afmhot", "afmhot_r", "autumn", "autumn_r", "binary", "binary_r",
   "bone", "bone_r", "brg", "brg_r", "bwr", "bwr_r", "cividis", "cividis_r",
   "cool", "cool_r", "coolwarm", "coolwarm_r", "copper", "copper_r", "cubehelix", "cubehelix_r",
   "flag", "flag_r", "gist_earth", "gist_earth_r", "gist_gray", "gist_gray_r",
   "gist_heat", "gist_heat_r", "gist_ncar", "gist_ncar_r", "gist_rainbow", "gist_rainbow_r",
   "gist_stern", "gist_stern_r", "gist_yarg", "gist_yarg_r", "gnuplot", "gnuplot2",
   "gnuplot2_r", "gnuplot_r", "gray", "gray_r", "hot", "hot_r", "hsv", "hsv_r",
   "inferno", "inferno_r", "jet", "jet_r", "magma", "magma_r", "nipy_spectral",
   "nipy_spectral_r", "ocean", "ocean_r", "pink", "pink_r", "plasma", "plasma_r",
   "prism", "prism_r", "rainbow", "rainbow_r", "seismic", "seismic_r", "spring", "spring_r",
   "summer", "summer_r", "tab10", "tab10_r", "tab20", "tab20_r", "tab20b", "tab20b_r",
   "tab20c", "tab20c_r", "terrain", "terrain_r", "turbo", "turbo_r", "twilight",
   "twilight_r", "twilight_shifted", "twilight_shifted_r", "viridis", "viridis_r",
   "winter", "winter_r"]

/-- The colormap combobox selection set by `self._colormap_field.current(0)`
when the form is built: entry 0 of the palette list. -/
def initialColormapSelection : String := colormap_values.headI

/-- Python `"a, b".split(",")` on character lists: split on every occurrence of
`sep`, keeping empty segments. -/
def splitOnCharList (sep : Char) : List Char → List (List Char)
  | [] => [[]]
  | c :: rest =>
    if c = sep then [] :: splitOnCharList sep rest
    else
      match splitOnCharList sep rest with
      | [] => [[c]]
      | h :: t => (c :: h) :: t

/-- `Form._get_textual_content`: read, validate, return. -/
def Form_get_textual_content (st : FormState) : Except AppError String :=
  let textual_content := get_text_value st.textual_content_field
  match validate_text_content textual_content with
  | .error e => .error e
  | .ok _ => .ok textual_content

/-- `Form._get_dimensions`: read width and height, validate width then height,
then convert both with `int()`. -/
def Form_get_dimensions (st : FormState) : Except AppError (Int × Int) :=
  let width := get_box_value st.width_field
  let height := get_box_value st.height_field
  match validate_width width with
  | .error e => .error e
  | .ok _ =>
    match validate_height height with
    | .error e => .error e
    | .ok _ =>
      match intPyE width with
      | .error e => .error e
      | .ok w =>
        match intPyE height with
        | .error e => .error e
        | .ok h => .ok (w, h)

/-- `Form._get_max_words`. -/
def Form_get_max_words (st : FormState) : Except AppError Int :=
  let max_words := get_box_value st.max_words_field
  match validate_max_words max_words with
  | .error e => .error e
  | .ok _ => intPyE max_words

/-- `Form._get_background_color`: the stored field when truthy, else `None`. -/
def Form_get_background_color (st : FormState) : Option String :=
  match st.background_color_field with
  | some s => if s ≠ "" then some s else none
  | none => none

/-- `Form._get_colormap`. -/
def Form_get_colormap (st : FormState) : String := get_box_value st.colormap_field

/-- The body of `Form._get_stopwords` on the raw widget text: strip, and when
nonempty split on commas, strip each token, drop falsy (empty) tokens, collect
into a set; when empty return `None`. -/
def stopwordsFromText (raw : String) : Option (Finset String) :=
  let stopword_values := get_text_value raw
  if stopword_values ≠ "" then
    some ((((splitOnCharList ',' stopword_values.data).map
      (fun w => String.mk (pyStripList w))).filter (fun w => w ≠ "")).toFinset)
  else none

/-- `Form._get_stopwords`. -/
def Form_get_stopwords (st : FormState) : Option (Finset String) :=
  stopwordsFromText st.stopwords_field

/-- `Form._get_file_path`: the stored path (not stripped), validated. -/
def Form_get_file_path (st : FormState) : Except AppError String :=
  match validate_file_path st.file_path_field with
  | .error e => .error e
  | .ok _ => .ok st.file_path_field

/-- `Form._build_image_object`: read and validate every field in source order,
then construct the `Image`.  The non-validating reads (background color,
colormap, stopwords) sit between the max-words read and the file-path read,
exactly as in the source. -/
def Form_build_image_object (st : FormState) : Except AppError Image :=
  match Form_get_textual_content st with
  | .error e => .error e
  | .ok textual_content =>
    match Form_get_dimensions st with
    | .error e => .error e
    | .ok wh =>
      match Form_get_max_words st with
      | .error e => .error e
      | .ok max_words =>
        let background_color := Form_get_background_color st
        let colormap := Form_get_colormap st
        let stopwords := Form_get_stopwords st
        match Form_get_file_path st with
        | .error e => .error e
        | .ok file_path =>
          .ok (Image.make textual_content wh.1 wh.2 max_words background_color
            colormap stopwords file_path)

/-- `Form._background_colorpicker`: stores `askcolor(...)[1]` (the hex string,
or `None` when the dialog is cancelled) into the background color field. -/
def Form_background_colorpicker (st : FormState) (dialogColorHex : Option String) :
    FormState :=
  { st with background_color_field := dialogColorHex }

/-- Observable external effects of a submission. -/
inductive Event where
  | generated (image : Image)
  | savedFile (file_path : String)
  | infoShown (title message : String)
  | errorShown (title message : String)
deriving DecidableEq

/-- The success message shown by `Form._generate_word_cloud_image`. -/
def successMessage (file_path : String) : String :=
  "Your Word Cloud has been successfully generated." ++
    " You can find it on the path below:\n\n" ++ file_path

/-- `Form._generate_word_cloud_image`: build the configuration; on success
generate, save, reset the file-path field and show the success dialog; a
`FormException` is caught and shown in the error dialog; any other exception
(`ValueError` from `int()`) propagates out of the handler. -/
def Form_generate_word_cloud_image (st : FormState) :
    Except AppError (FormState × List Event) :=
  match Form_build_image_object st with
  | .ok image =>
    .ok ({ st with file_path_field := "" },
      [Event.generated image, Event.savedFile image.file_path,
       Event.infoShown "Success" (successMessage image.file_path)])
  | .error (.formException msg) => .ok (st, [Event.errorShown "error" msg])
  | .error (.valueError lit) => .error (.valueError lit)

/-- A fully valid form state: text entered, spinners at their initial values
(`from_` = 400 / 200 / 200), background color untouched, colormap at its
initial selection, stopwords empty (an empty `Text` widget reads back as a bare
newline), and a chosen save path. -/
def st0 : FormState :=
  { textual_content_field := "hello world hello\n"
    width_field := "400"
    height_field := "200"
    max_words_field := "200"
    background_color_field := some ""
    colormap_field := "Accent"
    stopwords_field := "\n"
    file_path_field := "cloud.png" }

/-- The configuration `Form._build_image_object` produces from `st0`. -/
def img0 : Image :=
  { textual_content := "hello world hello", width := 400, height := 200,
    max_words := 200, background_color := "black", colormap := "Accent",
    stopwords := none, file_path := "cloud.png" }

/-- `st0` with the width spinner edited to 150 (below the allowed minimum). -/
def stBadWidth : FormState := { st0 with width_field := "150" }

/-- The first validation failure of a submission, checking the fields in the
order `Form._build_image_object` reads them: textual content, width, height,
max words, file path. -/
def firstValidationFailure (st : FormState) : Option AppError :=
  match validate_text_content (get_text_value st.textual_content_field) with
  | .error e => some e
  | .ok _ =>
    match validate_width (get_box_value st.width_field) with
    | .error e => some e
    | .ok _ =>
      match validate_height (get_box_value st.height_field) with
      | .error e => some e
      | .ok _ =>
        match validate_max_words (get_box_value st.max_words_field) with
        | .error e => some e
        | .ok _ =>
          match validate_file_path st.file_path_field with
          | .error e => some e
          | .ok _ => none

/-! ## Helper lemmas -/

lemma parseIntPy_ne_empty {s : String} {w : Int} (h : parseIntPy s = some w) :
    s ≠ "" := by
  intro heq
  rw [heq] at h
  simp [show parseIntPy "" = none from rfl] at h

lemma validate_width_ok_parse {s : String} (h : validate_width s = .ok ()) :
    ∃ n, parseIntPy s = some n := by
  by_cases hs : s = ""
  · simp [validate_width, hs] at h
  · cases hp : parseIntPy s with
    | none => simp [validate_width, hs, hp] at h
    | some n => exact ⟨n, rfl⟩

lemma validate_height_ok_parse {s : String} (h : validate_height s = .ok ()) :
    ∃ n, parseIntPy s = some n := by
  by_cases hs : s = ""
  · simp [validate_height, hs] at h
  · cases hp : parseIntPy s with
    | none => simp [validate_height, hs, hp] at h
    | some n => exact ⟨n, rfl⟩

lemma validate_max_words_ok_parse {s : String} (h : validate_max_words s = .ok ()) :
    ∃ n, parseIntPy s = some n := by
  by_cases hs : s = ""
  · simp [validate_max_words, hs] at h
  · cases hp : parseIntPy s with
    | none => simp [validate_max_words, hs, hp] at h
    | some n => exact ⟨n, rfl⟩

lemma dropWhile_head_false (p : Char → Bool) :
    ∀ (l : List Char) (c : Char) (t : List Char), l.dropWhile p = c :: t → p c = false := by
  intro l
  induction l with
  | nil => intro c t h; simp [List.dropWhile] at h
  | cons a l ih =>
    intro c t h
    rw [List.dropWhile_cons] at h
    by_cases hp : p a
    · exact ih c t (by simpa [hp] using h)
    · rw [if_neg (by simpa using hp)] at h
      cases h
      simpa using hp

lemma mem_of_mem_dropWhile {p : Char → Bool} {l : List Char} {x : Char}
    (h : x ∈ l.dropWhile p) : x ∈ l :=
  (List.takeWhile_append_dropWhile p l) ▸ List.mem_append_right _ h

lemma pyStripList_eq_nil_iff (l : List Char) :
    pyStripList l = [] ↔ ∀ c ∈ l, isPySpace c = true := by
  unfold pyStripList
  rw [List.reverse_eq_nil_iff, List.dropWhile_eq_nil_iff]
  constructor
  · intro h c hc
    rw [← List.takeWhile_append_dropWhile isPySpace l] at hc
    rcases List.mem_append.1 hc with h1 | h2
    · exact List.mem_takeWhile_imp h1
    · exact h c (List.mem_reverse.2 h2)
  · intro h c hc
    exact h c (mem_of_mem_dropWhile (List.mem_reverse.1 hc))

lemma pyIsSpaceStr_iff (s : String) :
    pyIsSpaceStr s = true ↔ s.data ≠ [] ∧ ∀ c ∈ s.data, isPySpace c = true := by
  simp [pyIsSpaceStr, List.all_eq_true, List.isEmpty_iff]

/-- Projections of a successfully built configuration: the raw-value fields the
builder copies verbatim from the (total) getters. -/
lemma build_ok_image (st : FormState) (image : Image)
    (h : Form_build_image_object st = .ok image) :
    image.background_color = (Form_get_background_color st).getD "black" ∧
      image.colormap = Form_get_colormap st ∧
      image.stopwords = Form_get_stopwords st ∧
      image.file_path = st.file_path_field := by
  unfold Form_build_image_object at h
  split at h
  · exact absurd h (by simp)
  · split at h
    · exact absurd h (by simp)
    · split at h
      · exact absurd h (by simp)
      · split at h
        · exact absurd h (by simp)
        · rename_i file_path heq
          cases h
          refine ⟨rfl, rfl, rfl, ?_⟩
          unfold Form_get_file_path at heq
          split at heq
          · exact absurd heq (by simp)
          · simp only [Except.ok.injEq, Image.make] at heq ⊢
            exact heq.symm

/-! ## Claim theorems -/

/-- Claim C1 (code bug): for a non-numeric width string such as "abc" (all
other fields valid), validation raises Python's `ValueError` from `int()`, not
the `FormException` kind, and the submission boundary — which catches only
`FormException` — lets it escape to the caller instead of showing the error
dialog.  The two kinds are distinct constructors. -/
theorem nonnumeric_width_escapes_boundary :
    validate_width "abc" = .error (.valueError "abc") ∧
      Form_generate_word_cloud_image { st0 with width_field := "abc" } =
        .error (.valueError "abc") ∧
      ∀ msg, (AppError.valueError "abc") ≠ (AppError.formException msg) :=
  ⟨rfl, rfl, fun _ h => AppError.noConfusion h⟩

/-- Claim C2: for every integer w supplied as the width string, width
validation succeeds iff 400 ≤ w ≤ 3000; likewise height validation succeeds
iff 200 ≤ w ≤ 1500 and max-words validation succeeds iff 200 ≤ w ≤ 400, with
the boundary values inclusive. -/
theorem numeric_range_validation (s : String) (w : Int)
    (h : parseIntPy s = some w) :
    (validate_width s = .ok () ↔ 400 ≤ w ∧ w ≤ 3000) ∧
      (validate_height s = .ok () ↔ 200 ≤ w ∧ w ≤ 1500) ∧
      (validate_max_words s = .ok () ↔ 200 ≤ w ∧ w ≤ 400) := by
  have hs : ¬s = "" := parseIntPy_ne_empty h
  refine ⟨?_, ?_, ?_⟩ <;>
    · simp only [validate_width, validate_height, validate_max_words, hs,
        if_false, h, MIN_WIDTH_IMAGE, MAX_WIDTH_IMAGE, MIN_HEIGHT_IMAGE,
        MAX_HEIGHT_IMAGE, MIN_NUM_WORDS, MAX_NUM_WORDS]
      split_ifs with h1 h2 <;> simp <;> omega

/-- Witness for C2 at the concrete width string "400". -/
theorem numeric_range_validation_witness :
    (validate_width "400" = .ok () ↔ 400 ≤ (400 : Int) ∧ (400 : Int) ≤ 3000) ∧
      (validate_height "400" = .ok () ↔ 200 ≤ (400 : Int) ∧ (400 : Int) ≤ 1500) ∧
      (validate_max_words "400" = .ok () ↔ 200 ≤ (400 : Int) ∧ (400 : Int) ≤ 400) :=
  numeric_range_validation "400" 400 rfl

/-- Claim C8: when building the configuration fails with a `FormException`,
the submission shows exactly one dialog — the error dialog with that failure's
message — and returns the form state unchanged: no generation event, no file
write, no field reset. -/
theorem validation_failure_reported_only (st : FormState) (msg : String)
    (h : Form_build_image_object st = .error (.formException msg)) :
    Form_generate_word_cloud_image st = .ok (st, [Event.errorShown "error" msg]) := by
  simp [Form_generate_word_cloud_image, h]

/-- Witness for C8: width "150" fails with the range message; the state is
returned unchanged with only the error dialog event. -/
theorem validation_failure_reported_only_witness :
    Form_generate_word_cloud_image stBadWidth =
      .ok (stBadWidth,
        [Event.errorShown "error" "Width needs to be between 400 and 3000."]) :=
  validation_failure_reported_only stBadWidth _ rfl

/-- Claim C9: on a successful generation the save-path field is reset to the
empty string and the success dialog's message contains the saved path, while
every other field keeps its current value. -/
theorem generation_success_resets_path (st : FormState) (image : Image)
    (h : Form_build_image_object st = .ok image) :
    Form_generate_word_cloud_image st =
      .ok ({ st with file_path_field := "" },
        [Event.generated image, Event.savedFile image.file_path,
         Event.infoShown "Success" (successMessage image.file_path)]) ∧
      ({ st with file_path_field := "" }).file_path_field = "" ∧
      ({ st with file_path_field := "" }).textual_content_field = st.textual_content_field ∧
      ({ st with file_path_field := "" }).width_field = st.width_field ∧
      ({ st with file_path_field := "" }).height_field = st.height_field ∧
      ({ st with file_path_field := "" }).max_words_field = st.max_words_field ∧
      ({ st with file_path_field := "" }).background_color_field = st.background_color_field ∧
      ({ st with file_path_field := "" }).colormap_field = st.colormap_field ∧
      ({ st with file_path_field := "" }).stopwords_field = st.stopwords_field ∧
      ∃ p, successMessage image.file_path = p ++ image.file_path :=
  ⟨by simp [Form_generate_word_cloud_image, h], rfl, rfl, rfl, rfl, rfl, rfl, rfl,
    rfl, ⟨_, rfl⟩⟩

/-- Witness for C9 at the fully valid state `st0`. -/
theorem generation_success_resets_path_witness :
    Form_generate_word_cloud_image st0 =
      .ok ({ st0 with file_path_field := "" },
        [Event.generated img0, Event.savedFile img0.file_path,
         Event.infoShown "Success" (successMessage img0.file_path)]) :=
  (generation_success_resets_path st0 img0 rfl).1

/-- Claim C4 counterexample: the path ".png" has an empty basename-without-
extension, yet file-path validation accepts it, because Python's
`"".isspace()` is `False`.  The claim as stated (an empty basename fails) is
therefore false. -/
theorem empty_basename_path_accepted :
    splitDotHead (pyBasename ".png") = "" ∧ validate_file_path ".png" = .ok () :=
  ⟨rfl, rfl⟩

lemma validate_file_path_ok_iff (fp : String) :
    validate_file_path fp = .ok () ↔
      ¬(fp = "" ∨ pyIsSpaceStr (splitDotHead (pyBasename fp)) = true) := by
  unfold validate_file_path
  split_ifs with h <;> simp [h]

/-- Claim C4 (amended): file-path validation fails exactly when the path is
empty, or when the basename with its extension stripped is nonempty and
consists only of whitespace; a nonempty path whose basename-sans-extension is
empty passes. -/
theorem file_path_validation (fp : String) :
    validate_file_path fp = .ok () ↔
      ¬(fp = "" ∨ ((splitDotHead (pyBasename fp)).data ≠ [] ∧
        ∀ c ∈ (splitDotHead (pyBasename fp)).data, isPySpace c = true)) := by
  rw [validate_file_path_ok_iff, pyIsSpaceStr_iff]

/-- Claim C5 counterexample: with every other field valid and the stopwords
widget empty (it reads back as a bare newline), the built configuration's
stopwords value is `none` (Python `None`, passed positionally so the dataclass
default empty set is never used) — not the empty set the claim states. -/
theorem empty_stopwords_none_in_config :
    get_text_value st0.stopwords_field = "" ∧
      Form_build_image_object st0 = .ok img0 ∧
      img0.stopwords = none ∧
      img0.stopwords ≠ some (∅ : Finset String) :=
  ⟨rfl, rfl, rfl, by decide⟩

/-- Claim C5 (amended): stopword parsing splits on commas, trims each token and
discards empty tokens — "a, b ,, c" yields the set containing exactly "a", "b"
and "c" — but empty raw input yields an absent (`None`) stopwords value in the
built configuration, not an empty set. -/
theorem stopwords_parsing :
    stopwordsFromText "a, b ,, c" = some ({"a", "b", "c"} : Finset String) ∧
      stopwordsFromText "" = none ∧
      Form_get_stopwords st0 = none :=
  ⟨by decide, rfl, rfl⟩

/-- Claim C6: when the colormap combobox is still at the selection `current(0)`
installed when the form was built, the built configuration's colormap is
"Accent", the first entry of the fixed palette list. -/
theorem colormap_defaults_to_first (st : FormState) (image : Image)
    (hsel : st.colormap_field = initialColormapSelection)
    (h : Form_build_image_object st = .ok image) :
    image.colormap = "Accent" ∧ initialColormapSelection = "Accent" ∧
      colormap_values.head? = some "Accent" := by
  refine ⟨?_, rfl, rfl⟩
  have hc := (build_ok_image st image h).2.1
  rw [hc, Form_get_colormap, hsel]
  rfl

/-- Witness for C6 at the fully valid state `st0` (combobox untouched). -/
theorem colormap_defaults_to_first_witness :
    img0.colormap = "Accent" ∧ initialColormapSelection = "Accent" ∧
      colormap_values.head? = some "Accent" :=
  colormap_defaults_to_first st0 img0 rfl rfl

/-- Claim C7: when no background color has been chosen — the field still holds
its initial empty string, or holds `None` because the color picker was
cancelled — the built configuration's background color is the literal
"black". -/
theorem background_defaults_to_black (st : FormState) (image : Image)
    (habs : st.background_color_field = none ∨ st.background_color_field = some "")
    (h : Form_build_image_object st = .ok image) :
    image.background_color = "black" ∧
      (Form_background_colorpicker st none).background_color_field = none := by
  refine ⟨?_, rfl⟩
  have hbg : Form_get_background_color st = none := by
    rcases habs with h1 | h1 <;> simp [Form_get_background_color, h1]
  have hb := (build_ok_image st image h).1
  rw [hb, hbg]
  rfl

/-- Witness for C7 at the fully valid state `st0` (color never chosen). -/
theorem background_defaults_to_black_witness :
    img0.background_color = "black" ∧
      (Form_background_colorpicker st0 none).background_color_field = none :=
  background_defaults_to_black st0 img0 (Or.inr rfl) rfl

/-- Claim C3: text-content validation on the value read from the text widget
(which is trimmed by `get_text_value`) succeeds exactly when the raw content
has at least one non-whitespace character; every empty or whitespace-only
input (including newline-only input) fails. -/
theorem text_content_validation (raw : String) :
    validate_text_content (get_text_value raw) = .ok () ↔
      ∃ c ∈ raw.data, isPySpace c = false := by
  by_cases hall : ∀ c ∈ raw.data, isPySpace c = true
  · have hnil : pyStripList raw.data = [] := (pyStripList_eq_nil_iff _).2 hall
    have hempty : get_text_value raw = "" := by
      unfold get_text_value pyStrip
      rw [hnil]
    rw [hempty]
    constructor
    · intro hok
      simp [validate_text_content] at hok
    · rintro ⟨c, hc, hcf⟩
      exact absurd (hall c hc) (by simp [hcf])
  · push_neg at hall
    obtain ⟨c, hc, hcf⟩ := hall
    have hcf : isPySpace c = false := by simpa using hcf
    have hne : pyStripList raw.data ≠ [] := by
      intro hnil
      exact absurd ((pyStripList_eq_nil_iff _).1 hnil c hc) (by simp [hcf])
    have hnN : pyStripList raw.data ≠ ['\n'] := by
      intro heq
      have h2 : (List.dropWhile isPySpace raw.data).reverse.dropWhile isPySpace = ['\n'] := by
        have h3 := congrArg List.reverse heq
        simpa [pyStripList] using h3
      have h4 := dropWhile_head_false isPySpace _ '\n' [] h2
      simp [isPySpace] at h4
    have hcond : ¬(get_text_value raw = "" ∨ get_text_value raw = "\n") := by
      rintro (h1 | h1)
      · exact hne (String.ext_iff.1 h1)
      · exact hnN (String.ext_iff.1 h1)
    constructor
    · intro _
      exact ⟨c, hc, hcf⟩
    · intro _
      unfold validate_text_content
      rw [if_neg hcond]

/-- Claim C10: a submission's configuration build fails with error e exactly
when e is the failure of the first invalid field in the fixed order textual
content, width, height, max words, file path — so when several fields are
invalid, only the first failing field's message is reported, and a field later
in the order influences the outcome only when all earlier fields validated. -/
theorem validation_short_circuit (st : FormState) (e : AppError) :
    Form_build_image_object st = .error e ↔ firstValidationFailure st = some e := by
  unfold Form_build_image_object firstValidationFailure Form_get_textual_content
    Form_get_dimensions Form_get_max_words Form_get_file_path
  cases h1 : validate_text_content (get_text_value st.textual_content_field) with
  | error e1 => simp [h1]
  | ok u1 =>
    cases u1
    cases h2 : validate_width (get_box_value st.width_field) with
    | error e2 => simp [h1, h2]
    | ok u2 =>
      cases u2
      obtain ⟨n2, hp2⟩ := validate_width_ok_parse h2
      cases h3 : validate_height (get_box_value st.height_field) with
      | error e3 => simp [h1, h2, h3]
      | ok u3 =>
        cases u3
        obtain ⟨n3, hp3⟩ := validate_height_ok_parse h3
        cases h4 : validate_max_words (get_box_value st.max_words_field) with
        | error e4 => simp [h1, h2, h3, h4, intPyE, hp2, hp3]
        | ok u4 =>
          cases u4
          obtain ⟨n4, hp4⟩ := validate_max_words_ok_parse h4
          cases h5 : validate_file_path st.file_path_field with
          | error e5 => simp [h1, h2, h3, h4, h5, intPyE, hp2, hp3, hp4]
          | ok u5 =>
            cases u5
            simp [h1, h2, h3, h4, h5, intPyE, hp2, hp3, hp4]
